import Mathlib

/-!
Shallow embedding of the GPU texture-sampling core
(`intern/cycles/kernel/device/gpu/image.h`).

Floating-point values are modelled by exact rationals. External
collaborators that the header only declares (texture/tile/image tables,
wrap policy, tile map, the hardware read primitive, the UDIM index) are
modelled as read-only functions bundled in a `KernelGlobals` record, so
every theorem quantifies over their behaviour.
-/

/-- Pairs of rationals stand in for the `float2` vectors of the source. -/
abbrev Float2 : Type := ℚ × ℚ

/-- Four-channel colors (`float4`): components x, y, z, w. -/
abbrev Float4 : Type := ℚ × ℚ × ℚ × ℚ

/-- Source helper `make_float4`. -/
def make_float4 (x y z w : ℚ) : Float4 := (x, y, z, w)

/-- Source helper `zero_float4()`. -/
def zero_float4 : Float4 := (0, 0, 0, 0)

/-- Source helper `zero_float2()`. -/
def zero_float2 : Float2 := (0, 0)

/-- Screen-space differential `differential2` (dx, dy); opaque to this core,
only passed through to the tile-map collaborator. -/
abbrev Differential2 : Type := Float2 × Float2

/-- C-style `float_to_int` cast: truncation toward zero. -/
def float_to_int (x : ℚ) : ℤ := if x < 0 then ⌈x⌉ else ⌊x⌋

/-- `frac` from image.h:
`int i = float_to_int(x) - ((x < 0.0f) ? 1 : 0); *ix = i; return x - (float)i;`.
The out-parameter is returned as the second component. -/
def frac (x : ℚ) : ℚ × ℤ :=
  let i : ℤ := float_to_int x - (if x < 0 then 1 else 0)
  (x - (i : ℚ), i)

/-- Cubic B-spline basis `cubic_w0`. -/
def cubic_w0 (a : ℚ) : ℚ := (1 / 6) * (a * (a * (-a + 3) - 3) + 1)

/-- Cubic B-spline basis `cubic_w1`. -/
def cubic_w1 (a : ℚ) : ℚ := (1 / 6) * (a * a * (3 * a - 6) + 4)

/-- Cubic B-spline basis `cubic_w2`. -/
def cubic_w2 (a : ℚ) : ℚ := (1 / 6) * (a * (a * (-3 * a + 3) + 3) + 1)

/-- Cubic B-spline basis `cubic_w3`. -/
def cubic_w3 (a : ℚ) : ℚ := (1 / 6) * (a * a * a)

/-- Amplitude function `cubic_g0`. -/
def cubic_g0 (a : ℚ) : ℚ := cubic_w0 a + cubic_w1 a

/-- Amplitude function `cubic_g1`. -/
def cubic_g1 (a : ℚ) : ℚ := cubic_w2 a + cubic_w3 a

/-- Offset function `cubic_h0`. -/
def cubic_h0 (a : ℚ) : ℚ := (cubic_w1 a / cubic_g0 a) - 1

/-- Offset function `cubic_h1`. -/
def cubic_h1 (a : ℚ) : ℚ := (cubic_w3 a / cubic_g1 a) + 1

/-- Image data types (`IMAGE_DATA_TYPE_*`); only equality tests are
performed on them in this core. -/
inductive ImageDataType where
  | FLOAT4
  | BYTE4
  | HALF4
  | USHORT4
  | FLOAT
  | BYTE
  | HALF
  | USHORT
deriving DecidableEq, Repr

/-- Interpolation modes (`INTERPOLATION_*`). -/
inductive InterpolationType where
  | NONE
  | LINEAR
  | CLOSEST
  | CUBIC
  | SMART
deriving DecidableEq, Repr

/-- `KernelImageInfo`: per-image metadata. `data` is the opaque handle to the
hardware-sampled storage (cast to a texture object by the source). -/
structure KernelImageInfo where
  data : ℕ
  width : ℚ
  height : ℚ
  data_type : ImageDataType
  interpolation : InterpolationType
deriving Repr

/-- `KernelImageTexture`: per-texture entry (extension policy, tile offset,
average color, direct slot). -/
structure KernelImageTexture where
  tile_descriptor_offset : ℕ
  extension : ℕ
  average_color : Float4
  slot : ℤ
deriving Repr

/-- Modelled from the spec: `KernelTileDescriptor` and its helpers live in
`kernel/util/image.h`, which is not part of this repository snapshot. The
spec describes it as a tri-state result — `LOADED(slot)`, `LOAD_FAILED`,
`NOT_LOADED` — so it is embedded as a three-case inductive. -/
inductive KernelTileDescriptor where
  | LOADED (slot : ℤ)
  | LOAD_FAILED
  | NOT_LOADED
deriving DecidableEq, Repr

/-- Modelled from the spec: the `KERNEL_TILE_LOAD_FAILED` terminal state. -/
def KERNEL_TILE_LOAD_FAILED : KernelTileDescriptor := KernelTileDescriptor.LOAD_FAILED

/-- Modelled from the spec: `kernel_tile_descriptor_loaded` tests for the
`LOADED` state. -/
def kernel_tile_descriptor_loaded : KernelTileDescriptor → Bool
  | KernelTileDescriptor.LOADED _ => true
  | _ => false

/-- Modelled from the spec: `kernel_tile_descriptor_slot` extracts the slot
of a `LOADED` descriptor (only called on loaded descriptors). -/
def kernel_tile_descriptor_slot : KernelTileDescriptor → ℤ
  | KernelTileDescriptor.LOADED s => s
  | _ => 0

/-- Modelled from the spec: `KERNEL_IMAGE_NONE`, the sentinel texture id
("use a missing-texture fallback"); an opaque integer constant. -/
def KERNEL_IMAGE_NONE : ℤ := -1

/-- `UINT_MAX`, the sentinel marking an undefined tile-descriptor offset. -/
def UINT_MAX : ℕ := 4294967295

/-- Modelled from the spec: `IMAGE_TEXTURE_MISSING_RGBA`, the fixed
process-wide missing-texture sentinel color (pink in the renderer). -/
def IMAGE_TEXTURE_MISSING_RGBA : Float4 := make_float4 1 0 1 1

/-- The read-only external state of one sample call: the texture and image
tables reachable through `kernel_data_fetch`, the wrap, tile-map and UDIM
collaborators, and the hardware read primitive at its two instantiations
(`ccl_gpu_image_object_read_2D<float>` and `<float4>`), keyed by the opaque
handle. `kernel_image_tile_wrap` returns the (possibly clamped) coordinate
or `none` on rejection; `ShaderData` is only threaded through to the
tile-map collaborator and is absorbed into its abstract function. -/
structure KernelGlobals where
  image_textures : ℤ → KernelImageTexture
  image_info : ℤ → KernelImageInfo
  tile_wrap : ℕ → Float2 → Option Float2
  tile_map : KernelImageTexture → Float2 → Differential2 → KernelTileDescriptor × Float2
  read1 : ℕ → ℚ → ℚ → ℚ
  read4 : ℕ → ℚ → ℚ → Float4

/-- `kernel_image_interp_bicubic<T>`: fast bicubic lookup using 4 bilinear
taps, generic over the sampled value type `T` exactly as the template is;
`read` is the `ccl_gpu_image_object_read_2D<T>` primitive applied to the
texture object obtained from `info.data`. -/
def kernel_image_interp_bicubic {T : Type} [Add T] [SMul ℚ T]
    (read : ℕ → ℚ → ℚ → T) (info : KernelImageInfo) (uv : Float2) : T :=
  let tex := info.data
  let x : ℚ := uv.1 * info.width - 1 / 2
  let y : ℚ := uv.2 * info.height - 1 / 2
  let px : ℚ := ((⌊x⌋ : ℤ) : ℚ)
  let py : ℚ := ((⌊y⌋ : ℤ) : ℚ)
  let fx : ℚ := x - px
  let fy : ℚ := y - py
  let g0x := cubic_g0 fx
  let g1x := cubic_g1 fx
  let x0 := (px + cubic_h0 fx + 1 / 2) / info.width
  let x1 := (px + cubic_h1 fx + 1 / 2) / info.width
  let y0 := (py + cubic_h0 fy + 1 / 2) / info.height
  let y1 := (py + cubic_h1 fy + 1 / 2) / info.height
  cubic_g0 fy • (g0x • read tex x0 y0 + g1x • read tex x1 y0) +
    cubic_g1 fy • (g0x • read tex x0 y1 + g1x • read tex x1 y1)

/-- The resolution phase of `kernel_image_interp` (the body up to the merge
point where `info` and the sampling coordinate are settled): either an
early-returned color (`Sum.inl`) or the resolved descriptor together with
the coordinate to sample at (`Sum.inr`). -/
def kernel_image_interp_resolve (kg : KernelGlobals) (tex_id : ℤ) (uv : Float2)
    (duv : Differential2) : Float4 ⊕ (KernelImageInfo × Float2) :=
  if tex_id = KERNEL_IMAGE_NONE then
    Sum.inl IMAGE_TEXTURE_MISSING_RGBA
  else
    let tex := kg.image_textures tex_id
    if tex.tile_descriptor_offset ≠ UINT_MAX then
      match kg.tile_wrap tex.extension uv with
      | none => Sum.inl zero_float4
      | some uvw =>
        let r := kg.tile_map tex uvw duv
        let tile_descriptor := r.1
        let xy := r.2
        if ! kernel_tile_descriptor_loaded tile_descriptor then
          Sum.inl (if tile_descriptor = KERNEL_TILE_LOAD_FAILED then
              IMAGE_TEXTURE_MISSING_RGBA
            else
              tex.average_color)
        else
          let info := kg.image_info (kernel_tile_descriptor_slot tile_descriptor)
          Sum.inr (info, (xy.1 / info.width, xy.2 / info.height))
    else
      if tex.slot = KERNEL_IMAGE_NONE then
        Sum.inl IMAGE_TEXTURE_MISSING_RGBA
      else
        Sum.inr (kg.image_info tex.slot, uv)

/-- The format-selection tail of `kernel_image_interp` (lines 143-156):
4-channel kinds sample directly, 1-channel kinds compute a scalar `f` and
broadcast `(f, f, f, 1)`. -/
def kernel_image_interp_format (kg : KernelGlobals) (info : KernelImageInfo)
    (uv : Float2) : Float4 :=
  let texture_type := info.data_type
  if texture_type = ImageDataType.FLOAT4 ∨ texture_type = ImageDataType.BYTE4 ∨
      texture_type = ImageDataType.HALF4 ∨ texture_type = ImageDataType.USHORT4 then
    if info.interpolation = InterpolationType.CUBIC ∨
        info.interpolation = InterpolationType.SMART then
      kernel_image_interp_bicubic kg.read4 info uv
    else
      kg.read4 info.data uv.1 uv.2
  else
    let f : ℚ :=
      if info.interpolation = InterpolationType.CUBIC ∨
          info.interpolation = InterpolationType.SMART then
        kernel_image_interp_bicubic kg.read1 info uv
      else
        kg.read1 info.data uv.1 uv.2
    make_float4 f f f 1

/-- `kernel_image_interp`: the dispatcher, resolution followed by format
selection. -/
def kernel_image_interp (kg : KernelGlobals) (tex_id : ℤ) (uv : Float2)
    (duv : Differential2) : Float4 :=
  match kernel_image_interp_resolve kg tex_id uv duv with
  | Sum.inl c => c
  | Sum.inr iuv => kernel_image_interp_format kg iuv.1 iuv.2

/-- Modelled from the spec: `kernel_image_udim_map`, the external UDIM
index mapping a virtual image id and a coordinate to a concrete texture id
(possibly `KERNEL_IMAGE_NONE`); declared outside this repository snapshot. -/
structure UdimIndex where
  udim_map : ℤ → Float2 → ℤ

/-- `kernel_image_interp_with_udim`: UDIM entry point; maps the virtual id
through the UDIM index, returns the sentinel on `KERNEL_IMAGE_NONE`, else
delegates to the base dispatcher. -/
def kernel_image_interp_with_udim (kg : KernelGlobals) (udim : UdimIndex)
    (image_id : ℤ) (uv : Float2) (duv : Differential2) : Float4 :=
  let tex_id := udim.udim_map image_id uv
  if tex_id = KERNEL_IMAGE_NONE then
    IMAGE_TEXTURE_MISSING_RGBA
  else
    kernel_image_interp kg tex_id uv duv

/-- Modelled from the spec: the hardware read primitive
`ccl_gpu_image_object_read_2D<float>` under bilinear filtering with the
CUDA convention (the source comment notes the `+0.5` compensation for it):
a normalized-coordinate fetch blends the two texels adjacent to
`x*W - 0.5` in each axis, over an abstract texel grid. -/
def hw_bilinear_read (texels : ℤ → ℤ → ℚ) (W H : ℚ) (x y : ℚ) : ℚ :=
  let u := x * W - 1 / 2
  let v := y * H - 1 / 2
  let i : ℤ := ⌊u⌋
  let j : ℤ := ⌊v⌋
  let fu := u - (i : ℚ)
  let fv := v - (j : ℚ)
  (1 - fv) * ((1 - fu) * texels i j + fu * texels (i + 1) j) +
    fv * ((1 - fu) * texels i (j + 1) + fu * texels (i + 1) (j + 1))

/-- C1: `kernel_image_interp_bicubic` converts to pixel space with the
half-pixel offset `x = u*W - 0.5`, `y = v*H - 0.5`, splits into integer
parts `(px, py)` and fractional parts `(fx, fy)`, forms the four tap
coordinates from the offset functions with the `+0.5` compensation, and
returns the `g0/g1`-weighted combination of the four bilinear reads at
`(x0,y0)`, `(x1,y0)`, `(x0,y1)`, `(x1,y1)` — identically for the scalar
and the 4-channel instantiation of the read primitive. -/
theorem C1_bicubic_four_tap_formula (read1 : ℕ → ℚ → ℚ → ℚ)
    (read4 : ℕ → ℚ → ℚ → Float4) (info : KernelImageInfo) (uv : Float2) :
    let W := info.width
    let H := info.height
    let x := uv.1 * W - 1 / 2
    let y := uv.2 * H - 1 / 2
    let px : ℚ := ((⌊x⌋ : ℤ) : ℚ)
    let py : ℚ := ((⌊y⌋ : ℤ) : ℚ)
    let fx := x - px
    let fy := y - py
    let x0 := (px + cubic_h0 fx + 1 / 2) / W
    let x1 := (px + cubic_h1 fx + 1 / 2) / W
    let y0 := (py + cubic_h0 fy + 1 / 2) / H
    let y1 := (py + cubic_h1 fy + 1 / 2) / H
    kernel_image_interp_bicubic read1 info uv =
        cubic_g0 fy * (cubic_g0 fx * read1 info.data x0 y0 +
            cubic_g1 fx * read1 info.data x1 y0) +
          cubic_g1 fy * (cubic_g0 fx * read1 info.data x0 y1 +
            cubic_g1 fx * read1 info.data x1 y1) ∧
      kernel_image_interp_bicubic read4 info uv =
        cubic_g0 fy • (cubic_g0 fx • read4 info.data x0 y0 +
            cubic_g1 fx • read4 info.data x1 y0) +
          cubic_g1 fy • (cubic_g0 fx • read4 info.data x0 y1 +
            cubic_g1 fx • read4 info.data x1 y1) := by
  constructor
  · simp [kernel_image_interp_bicubic, smul_eq_mul]
  · simp [kernel_image_interp_bicubic]

/-- C5: calling the dispatcher with the `KERNEL_IMAGE_NONE` texture
reference returns the missing-texture sentinel for every coordinate,
differential, and environment (so no table lookup, wrap, tile map, or
fetch can influence the result). -/
theorem C5_none_returns_sentinel (kg : KernelGlobals) (uv : Float2)
    (duv : Differential2) :
    kernel_image_interp kg KERNEL_IMAGE_NONE uv duv =
      IMAGE_TEXTURE_MISSING_RGBA := by
  simp [kernel_image_interp, kernel_image_interp_resolve]

/-- C6: for every `a` in `[0, 1)` the four cubic B-spline basis functions
sum to 1 exactly, and hence the two amplitude functions sum to 1. -/
theorem C6_partition_of_unity (a : ℚ) (_h : 0 ≤ a ∧ a < 1) :
    cubic_w0 a + cubic_w1 a + cubic_w2 a + cubic_w3 a = 1 ∧
      cubic_g0 a + cubic_g1 a = 1 := by
  refine ⟨?_, ?_⟩ <;>
  · simp only [cubic_w0, cubic_w1, cubic_w2, cubic_w3, cubic_g0, cubic_g1]
    ring

/-- Witness for C6 at `a = 1/2`. -/
theorem C6_partition_of_unity_witness :
    (0 ≤ (1 / 2 : ℚ) ∧ (1 / 2 : ℚ) < 1) ∧
      (cubic_w0 (1 / 2) + cubic_w1 (1 / 2) + cubic_w2 (1 / 2) +
          cubic_w3 (1 / 2) = 1 ∧
        cubic_g0 (1 / 2) + cubic_g1 (1 / 2) = 1) :=
  ⟨by norm_num, C6_partition_of_unity (1 / 2) (by norm_num)⟩

/-- C10: `frac` stores `i = trunc(x) - (1 if x < 0 else 0)` and returns
`x - i`; the return value plus the stored integer reconstructs `x`, the
return value lies in `[0, 1]`, and at a negative whole number the return
value is exactly 1 with stored integer `x - 1`. -/
theorem C10_frac_properties (x : ℚ) :
    (frac x).2 = float_to_int x - (if x < 0 then 1 else 0) ∧
      x = (frac x).1 + ((frac x).2 : ℚ) ∧
      0 ≤ (frac x).1 ∧ (frac x).1 ≤ 1 ∧
      (∀ n : ℤ, n < 0 → x = (n : ℚ) →
        (frac x).1 = 1 ∧ (frac x).2 = n - 1) := by
  refine ⟨rfl, ?_, ?_, ?_, ?_⟩
  · simp only [frac]
    push_cast
    ring
  · simp only [frac, float_to_int]
    by_cases h : x < 0
    · simp only [if_pos h]
      push_cast
      have := Int.ceil_lt_add_one (α := ℚ) x
      linarith
    · simp only [if_neg h]
      push_cast
      have := Int.floor_le (α := ℚ) x
      linarith
  · simp only [frac, float_to_int]
    by_cases h : x < 0
    · simp only [if_pos h]
      push_cast
      have := Int.le_ceil (α := ℚ) x
      linarith
    · simp only [if_neg h]
      push_cast
      have := Int.lt_floor_add_one (α := ℚ) x
      linarith
  · intro n hn hx
    subst hx
    have hlt : ((n : ℚ)) < 0 := by exact_mod_cast hn
    refine ⟨?_, ?_⟩
    · simp only [frac, float_to_int, if_pos hlt]
      rw [Int.ceil_intCast]
      push_cast
      ring
    · simp only [frac, float_to_int, if_pos hlt]
      rw [Int.ceil_intCast]

/-- Witness for C10 at the negative whole number `x = -2`: the fractional
return is exactly 1 and the stored integer is `-3`. -/
theorem C10_frac_properties_witness :
    (frac (-2 : ℚ)).1 = 1 ∧ (frac (-2 : ℚ)).2 = (-2 : ℤ) - 1 :=
  (C10_frac_properties (-2)).2.2.2.2 (-2) (by decide) (by norm_num)

/-- C2: on the tiled path with an accepted coordinate, the dispatcher's
result is determined by the tile descriptor state: `LOAD_FAILED` yields
the missing-texture sentinel, `NOT_LOADED` yields the texture's stored
average color, and `LOADED slot` resolves the image descriptor at `slot`,
renormalizes the tile-local coordinate `xy` by that descriptor's extents,
and delegates to format selection. -/
theorem C2_tile_tri_state (kg : KernelGlobals) (tex_id : ℤ) (uv uvw : Float2)
    (duv : Differential2) (td : KernelTileDescriptor) (xy : Float2)
    (hid : tex_id ≠ KERNEL_IMAGE_NONE)
    (htiled : (kg.image_textures tex_id).tile_descriptor_offset ≠ UINT_MAX)
    (hwrap : kg.tile_wrap (kg.image_textures tex_id).extension uv = some uvw)
    (hmap : kg.tile_map (kg.image_textures tex_id) uvw duv = (td, xy)) :
    (td = KernelTileDescriptor.LOAD_FAILED →
        kernel_image_interp kg tex_id uv duv = IMAGE_TEXTURE_MISSING_RGBA) ∧
      (td = KernelTileDescriptor.NOT_LOADED →
        kernel_image_interp kg tex_id uv duv =
          (kg.image_textures tex_id).average_color) ∧
      (∀ slot : ℤ, td = KernelTileDescriptor.LOADED slot →
        kernel_image_interp kg tex_id uv duv =
          kernel_image_interp_format kg (kg.image_info slot)
            (xy.1 / (kg.image_info slot).width,
              xy.2 / (kg.image_info slot).height)) := by
  refine ⟨?_, ?_, ?_⟩
  · intro h
    subst h
    simp [kernel_image_interp, kernel_image_interp_resolve, hid, htiled, hwrap,
      hmap, kernel_tile_descriptor_loaded, KERNEL_TILE_LOAD_FAILED]
  · intro h
    subst h
    simp [kernel_image_interp, kernel_image_interp_resolve, hid, htiled, hwrap,
      hmap, kernel_tile_descriptor_loaded, KERNEL_TILE_LOAD_FAILED]
  · intro slot h
    subst h
    simp [kernel_image_interp, kernel_image_interp_resolve, hid, htiled, hwrap,
      hmap, kernel_tile_descriptor_loaded, kernel_tile_descriptor_slot]

/-- C3: on the tiled path, a coordinate rejected by the wrap policy makes
the dispatcher return transparent black, which differs from the
missing-texture sentinel; the tile map, image table and read primitives
are arbitrary here, so none of them can influence the result. -/
theorem C3_wrap_reject_transparent_black (kg : KernelGlobals) (tex_id : ℤ)
    (uv : Float2) (duv : Differential2)
    (hid : tex_id ≠ KERNEL_IMAGE_NONE)
    (htiled : (kg.image_textures tex_id).tile_descriptor_offset ≠ UINT_MAX)
    (hwrap : kg.tile_wrap (kg.image_textures tex_id).extension uv = none) :
    kernel_image_interp kg tex_id uv duv = zero_float4 ∧
      zero_float4 ≠ IMAGE_TEXTURE_MISSING_RGBA := by
  constructor
  · simp [kernel_image_interp, kernel_image_interp_resolve, hid, htiled, hwrap]
  · decide

/-- C4: for a resolved descriptor of 1-channel kind, format selection
computes one scalar `f` (bicubic when interpolation is cubic or smart,
otherwise one direct read) and returns exactly `(f, f, f, 1)`. -/
theorem C4_single_channel_broadcast (kg : KernelGlobals)
    (info : KernelImageInfo) (uv : Float2)
    (h : info.data_type = ImageDataType.FLOAT ∨
      info.data_type = ImageDataType.BYTE ∨
      info.data_type = ImageDataType.HALF ∨
      info.data_type = ImageDataType.USHORT) :
    let f : ℚ :=
      if info.interpolation = InterpolationType.CUBIC ∨
          info.interpolation = InterpolationType.SMART then
        kernel_image_interp_bicubic kg.read1 info uv
      else
        kg.read1 info.data uv.1 uv.2
    kernel_image_interp_format kg info uv = make_float4 f f f 1 := by
  rcases h with h | h | h | h <;> simp [kernel_image_interp_format, h]

/-- C8: the UDIM entry point returns the missing-texture sentinel when the
external UDIM index yields `KERNEL_IMAGE_NONE` (for every environment, so
no table is consulted), and otherwise returns exactly the base
dispatcher's result for the mapped texture id. -/
theorem C8_udim_dispatch (kg : KernelGlobals) (udim : UdimIndex)
    (image_id : ℤ) (uv : Float2) (duv : Differential2) :
    (udim.udim_map image_id uv = KERNEL_IMAGE_NONE →
        kernel_image_interp_with_udim kg udim image_id uv duv =
          IMAGE_TEXTURE_MISSING_RGBA) ∧
      (udim.udim_map image_id uv ≠ KERNEL_IMAGE_NONE →
        kernel_image_interp_with_udim kg udim image_id uv duv =
          kernel_image_interp kg (udim.udim_map image_id uv) uv duv) := by
  constructor
  · intro h
    simp [kernel_image_interp_with_udim, h]
  · intro h
    simp [kernel_image_interp_with_udim, h]

/-- C9: the dispatcher is deterministic — two calls with identical inputs
against extensionally identical read-only tables, collaborators and read
primitives return identical results (the embedding is a pure function of
these, with no state to write). -/
theorem C9_deterministic (kg1 kg2 : KernelGlobals) (tex_id : ℤ)
    (uv : Float2) (duv : Differential2)
    (h1 : kg1.image_textures = kg2.image_textures)
    (h2 : kg1.image_info = kg2.image_info)
    (h3 : kg1.tile_wrap = kg2.tile_wrap)
    (h4 : kg1.tile_map = kg2.tile_map)
    (h5 : kg1.read1 = kg2.read1)
    (h6 : kg1.read4 = kg2.read4) :
    kernel_image_interp kg1 tex_id uv duv =
      kernel_image_interp kg2 tex_id uv duv := by
  have hkg : kg1 = kg2 := by
    cases kg1
    cases kg2
    simp_all
  rw [hkg]

/-- Fixture texture entry for the witnesses: tiled addressing. -/
def texA : KernelImageTexture :=
  { tile_descriptor_offset := 0, extension := 0,
    average_color := (1 / 4, 1 / 2, 3 / 4, 1), slot := 0 }

/-- Fixture image descriptor: 2x2 single-channel float, linear filtering. -/
def infoA : KernelImageInfo :=
  { data := 0, width := 2, height := 2,
    data_type := ImageDataType.FLOAT,
    interpolation := InterpolationType.LINEAR }

/-- Fixture environment whose wrap accepts and whose tile map loads slot 0. -/
def kgA : KernelGlobals :=
  { image_textures := fun _ => texA
    image_info := fun _ => infoA
    tile_wrap := fun _ uv => some uv
    tile_map := fun _ uv _ => (KernelTileDescriptor.LOADED 0, uv)
    read1 := fun _ _ _ => 7
    read4 := fun _ _ _ => (1, 2, 3, 4) }

/-- Fixture environment whose wrap policy rejects every coordinate. -/
def kgB : KernelGlobals :=
  { kgA with tile_wrap := fun _ _ => none }

/-- Fixture UDIM index that maps every virtual id to `KERNEL_IMAGE_NONE`. -/
def udimNone : UdimIndex :=
  { udim_map := fun _ _ => KERNEL_IMAGE_NONE }

/-- Witness for C2: in `kgA` the tile map yields `LOADED 0`, so the
dispatcher delegates to format selection on slot 0 with the renormalized
coordinate. -/
theorem C2_tile_tri_state_witness :
    kernel_image_interp kgA 3 (0, 0) ((0, 0), (0, 0)) =
      kernel_image_interp_format kgA (kgA.image_info 0)
        (0 / (kgA.image_info 0).width, 0 / (kgA.image_info 0).height) :=
  (C2_tile_tri_state kgA 3 (0, 0) (0, 0) ((0, 0), (0, 0))
    (KernelTileDescriptor.LOADED 0) (0, 0)
    (by decide) (by decide) rfl rfl).2.2 0 rfl

/-- Witness for C3: in `kgB` the wrap policy rejects, so the dispatcher
returns transparent black, distinct from the sentinel. -/
theorem C3_wrap_reject_witness :
    kernel_image_interp kgB 3 (0, 0) ((0, 0), (0, 0)) = zero_float4 ∧
      zero_float4 ≠ IMAGE_TEXTURE_MISSING_RGBA :=
  C3_wrap_reject_transparent_black kgB 3 (0, 0) ((0, 0), (0, 0))
    (by decide) (by decide) rfl

/-- Witness for C4: `infoA` is 1-channel with linear filtering and the
fixture read primitive returns 7, so the result is `(7, 7, 7, 1)`. -/
theorem C4_single_channel_broadcast_witness :
    kernel_image_interp_format kgA infoA (1 / 2, 1 / 2) =
      make_float4 7 7 7 1 := by
  simpa [infoA, kgA] using
    C4_single_channel_broadcast kgA infoA (1 / 2, 1 / 2) (Or.inl rfl)

/-- Witness for C8: with the all-`NONE` UDIM index the entry point returns
the sentinel. -/
theorem C8_udim_dispatch_witness :
    kernel_image_interp_with_udim kgA udimNone 5 (0, 0) ((0, 0), (0, 0)) =
      IMAGE_TEXTURE_MISSING_RGBA :=
  (C8_udim_dispatch kgA udimNone 5 (0, 0) ((0, 0), (0, 0))).1 rfl

/-- Witness for C9 at a concrete environment and input. -/
theorem C9_deterministic_witness :
    kernel_image_interp kgA 3 (0, 0) ((0, 0), (0, 0)) =
      kernel_image_interp kgA 3 (0, 0) ((0, 0), (0, 0)) :=
  C9_deterministic kgA kgA 3 (0, 0) ((0, 0), (0, 0)) rfl rfl rfl rfl rfl rfl

/-- Under the modelled bilinear convention, a read at a tap coordinate of
the form `((p + c + 1/2)/W, (q + d + 1/2)/H)` with `c, d` in `[0, 1)`
blends the four texels at `(p, q)`, `(p+1, q)`, `(p, q+1)`, `(p+1, q+1)`
with fractions `c` and `d`. -/
theorem hw_bilinear_read_tap (texels : ℤ → ℤ → ℚ) (W H : ℚ)
    (hW : W ≠ 0) (hH : H ≠ 0) (p q : ℤ) (c d : ℚ)
    (hc0 : 0 ≤ c) (hc1 : c < 1) (hd0 : 0 ≤ d) (hd1 : d < 1) :
    hw_bilinear_read texels W H (((p : ℚ) + c + 1 / 2) / W)
        (((q : ℚ) + d + 1 / 2) / H) =
      (1 - d) * ((1 - c) * texels p q + c * texels (p + 1) q) +
        d * ((1 - c) * texels p (q + 1) + c * texels (p + 1) (q + 1)) := by
  have hu : ((p : ℚ) + c + 1 / 2) / W * W - 1 / 2 = (p : ℚ) + c := by
    field_simp
    ring
  have hv : ((q : ℚ) + d + 1 / 2) / H * H - 1 / 2 = (q : ℚ) + d := by
    field_simp
    ring
  have hcf : ⌊c⌋ = 0 := Int.floor_eq_zero_iff.mpr ⟨hc0, hc1⟩
  have hdf : ⌊d⌋ = 0 := Int.floor_eq_zero_iff.mpr ⟨hd0, hd1⟩
  simp only [hw_bilinear_read, hu, hv, Int.floor_int_add, hcf, hdf, add_zero]
  ring

/-- C7 (amended): when the fractional offsets vanish (`fx = fy = 0`, that
is `u*W - 0.5` and `v*H - 0.5` are the integers `px`, `py`), the 4-tap
combination of `kernel_image_interp_bicubic` over the modelled hardware
bilinear read equals the exact separable cubic B-spline filter over the
3x3 texel neighborhood of `(px, py)` with per-axis weights
`(1/6, 2/3, 1/6)` — not, in general, the single direct bilinear read at
the base pixel. -/
theorem C7_bspline_at_integer (texels : ℤ → ℤ → ℚ) (info : KernelImageInfo)
    (uv : Float2) (px py : ℤ)
    (hW : info.width ≠ 0) (hH : info.height ≠ 0)
    (hx : uv.1 * info.width - 1 / 2 = (px : ℚ))
    (hy : uv.2 * info.height - 1 / 2 = (py : ℚ)) :
    kernel_image_interp_bicubic
        (fun _ x y => hw_bilinear_read texels info.width info.height x y)
        info uv =
      (1 / 6) * ((1 / 6) * texels (px - 1) (py - 1) +
          (2 / 3) * texels px (py - 1) + (1 / 6) * texels (px + 1) (py - 1)) +
        (2 / 3) * ((1 / 6) * texels (px - 1) py +
          (2 / 3) * texels px py + (1 / 6) * texels (px + 1) py) +
        (1 / 6) * ((1 / 6) * texels (px - 1) (py + 1) +
          (2 / 3) * texels px (py + 1) + (1 / 6) * texels (px + 1) (py + 1)) := by
  have e0 : cubic_h0 0 = -(1 / 5) := by
    norm_num [cubic_h0, cubic_w0, cubic_w1, cubic_g0]
  have e1 : cubic_h1 0 = 1 := by
    norm_num [cubic_h1, cubic_w2, cubic_w3, cubic_g1]
  have eg0 : cubic_g0 0 = 5 / 6 := by
    norm_num [cubic_g0, cubic_w0, cubic_w1]
  have eg1 : cubic_g1 0 = 1 / 6 := by
    norm_num [cubic_g1, cubic_w2, cubic_w3]
  have cx0 : ((px : ℚ) + -(1 / 5) + 1 / 2) / info.width =
      (((px - 1 : ℤ) : ℚ) + 4 / 5 + 1 / 2) / info.width := by
    push_cast
    ring
  have cx1 : ((px : ℚ) + 1 + 1 / 2) / info.width =
      (((px + 1 : ℤ) : ℚ) + 0 + 1 / 2) / info.width := by
    push_cast
    ring
  have cy0 : ((py : ℚ) + -(1 / 5) + 1 / 2) / info.height =
      (((py - 1 : ℤ) : ℚ) + 4 / 5 + 1 / 2) / info.height := by
    push_cast
    ring
  have cy1 : ((py : ℚ) + 1 + 1 / 2) / info.height =
      (((py + 1 : ℤ) : ℚ) + 0 + 1 / 2) / info.height := by
    push_cast
    ring
  have hsub : ∀ z : ℤ, z - 1 + 1 = z := fun z => by omega
  simp only [kernel_image_interp_bicubic, hx, hy, Int.floor_intCast, sub_self,
    smul_eq_mul, e0, e1, eg0, eg1, cx0, cx1, cy0, cy1]
  rw [hw_bilinear_read_tap texels info.width info.height hW hH (px - 1) (py - 1)
      (4 / 5) (4 / 5) (by norm_num) (by norm_num) (by norm_num) (by norm_num),
    hw_bilinear_read_tap texels info.width info.height hW hH (px + 1) (py - 1)
      0 (4 / 5) (by norm_num) (by norm_num) (by norm_num) (by norm_num),
    hw_bilinear_read_tap texels info.width info.height hW hH (px - 1) (py + 1)
      (4 / 5) 0 (by norm_num) (by norm_num) (by norm_num) (by norm_num),
    hw_bilinear_read_tap texels info.width info.height hW hH (px + 1) (py + 1)
      0 0 (by norm_num) (by norm_num) (by norm_num) (by norm_num)]
  simp only [hsub]
  ring

/-- Concrete texel grid for the C7 counterexample: value 6 on the column
of x-index 0, zero elsewhere. -/
def texelsC : ℤ → ℤ → ℚ := fun i _ => if i = 0 then 6 else 0

/-- Concrete 4x4 single-channel cubic-filtered image descriptor for the C7
counterexample. -/
def infoC : KernelImageInfo :=
  { data := 0, width := 4, height := 4,
    data_type := ImageDataType.FLOAT,
    interpolation := InterpolationType.CUBIC }

/-- C7 counterexample: at `uv = (3/8, 1/8)` over a 4x4 image the
fractional offsets vanish (`u*W - 0.5 = 1`, `v*H - 0.5 = 0`, so
`(px, py) = (1, 0)` and `fx = fy = 0`), yet the 4-tap bicubic combination
(value 1 on this grid) differs from the direct hardware bilinear read at
the base pixel center `((px + 0.5)/W, (py + 0.5)/H)` (value 0). -/
theorem C7_counterexample :
    ((3 / 8 : ℚ) * infoC.width - 1 / 2 = ((1 : ℤ) : ℚ) ∧
        (1 / 8 : ℚ) * infoC.height - 1 / 2 = ((0 : ℤ) : ℚ)) ∧
      kernel_image_interp_bicubic
          (fun _ x y => hw_bilinear_read texelsC infoC.width infoC.height x y)
          infoC (3 / 8, 1 / 8) ≠
        hw_bilinear_read texelsC infoC.width infoC.height
          ((1 + 1 / 2) / 4) ((0 + 1 / 2) / 4) := by
  refine ⟨⟨by norm_num [infoC], by norm_num [infoC]⟩, ?_⟩
  norm_num [kernel_image_interp_bicubic, hw_bilinear_read, texelsC, infoC,
    cubic_g0, cubic_g1, cubic_h0, cubic_h1, cubic_w0, cubic_w1, cubic_w2,
    cubic_w3]

/-- Witness for the amended C7 at the counterexample input: the 4-tap
combination equals the 3x3 B-spline blend around `(px, py) = (1, 0)`. -/
theorem C7_bspline_at_integer_witness :
    kernel_image_interp_bicubic
        (fun _ x y => hw_bilinear_read texelsC infoC.width infoC.height x y)
        infoC (3 / 8, 1 / 8) =
      (1 / 6) * ((1 / 6) * texelsC (1 - 1) (0 - 1) +
          (2 / 3) * texelsC 1 (0 - 1) + (1 / 6) * texelsC (1 + 1) (0 - 1)) +
        (2 / 3) * ((1 / 6) * texelsC (1 - 1) 0 +
          (2 / 3) * texelsC 1 0 + (1 / 6) * texelsC (1 + 1) 0) +
        (1 / 6) * ((1 / 6) * texelsC (1 - 1) (0 + 1) +
          (2 / 3) * texelsC 1 (0 + 1) + (1 / 6) * texelsC (1 + 1) (0 + 1)) :=
  C7_bspline_at_integer texelsC infoC (3 / 8, 1 / 8) 1 0
    (by norm_num [infoC]) (by norm_num [infoC])
    (by norm_num [infoC]) (by norm_num [infoC])
